import Mathlib

/-!
Verification development for the `lmout` lockout daemon.

The Python sources are embedded shallowly: pure functions become Lean
functions, the stateful pieces (lockout session manager, schedule store,
daemon loop) become explicit state-passing functions, and fallible
operations return `Except`/`Option`.  Wall-clock quantities are naturals
counting seconds; calendar dates are the ISO strings the code stores.
-/

namespace LockMeOut

/-- Number of seconds in a calendar day, the constant behind the
`timedelta(days=1)` adjustments in `utils/time.py`. -/
def secondsPerDay : Nat := 86400

/-- A wall-clock time-of-day string as fed to `parse_time_string`
(`utils/time.py`, lines 4-15).  The concrete `strptime` formats are an
external detail; a string is represented by the time of day it denotes
(seconds since midnight) or by the `malformed` marker for strings
matching no format. -/
inductive TimeStr where
  | valid (secondsOfDay : Nat)
  | malformed
deriving DecidableEq

/-- `parse_time_string` (`utils/time.py`, lines 4-15): returns the
time-of-day on success and raises (here: `Except.error`) on a string
matching none of the accepted formats. -/
def parse_time_string : TimeStr → Except Unit Nat
  | .valid s => .ok (s % secondsPerDay)
  | .malformed => .error ()

/-- `calculate_from_range` (`utils/time.py`, lines 33-72).  `now` is the
reference instant's time of day in seconds since midnight (the code
aligns `start_dt`/`end_dt` to `now`'s calendar date, so only the
time-of-day components enter every comparison).  Returns
`(delay_seconds, duration_seconds, total_duration_seconds)` or an error
when either time string fails to parse. -/
def calculate_from_range (start_str end_str : TimeStr) (now : Nat) :
    Except Unit (Nat × Nat × Nat) :=
  match parse_time_string start_str, parse_time_string end_str with
  | .ok s0, .ok e0 =>
    let e1 := if e0 ≤ s0 then e0 + secondsPerDay else e0
    let total := e1 - s0
    if s0 < now ∧ now < e1 then
      .ok (0, max 1 (e1 - now), total)
    else if now ≤ s0 then
      .ok (s0 - now, total, total)
    else
      .ok (s0 + secondsPerDay - now, total, total)
  | .error e, _ => .error e
  | _, .error e => .error e

/-- C8: for a window that parses with `start < end` on the same day and a
reference instant strictly before `start`, the calculator returns
`delaySeconds = start - now` and `remainingSeconds = totalSeconds =
end - start`. -/
theorem calculate_from_range_future_window (s e n : Nat)
    (hs : s < secondsPerDay) (he : e < secondsPerDay)
    (hse : s < e) (hns : n < s) :
    calculate_from_range (.valid s) (.valid e) n = .ok (s - n, e - s, e - s) := by
  have hs' : s % secondsPerDay = s := Nat.mod_eq_of_lt hs
  have he' : e % secondsPerDay = e := Nat.mod_eq_of_lt he
  simp only [calculate_from_range, parse_time_string, hs', he']
  rw [if_neg (by omega : ¬ e ≤ s)]
  rw [if_neg (by omega : ¬ (s < n ∧ n < e)), if_pos (by omega : n ≤ s)]

/-- Witness for C8 at the spec's concrete scenario
`compute("20:00", "20:30", now=18:00)`: delay 7200 s, remaining 1800 s,
total 1800 s. -/
theorem calculate_from_range_future_window_witness :
    calculate_from_range (.valid 72000) (.valid 73800) 64800 =
      .ok (7200, 1800, 1800) :=
  calculate_from_range_future_window 72000 73800 64800
    (by decide) (by decide) (by decide) (by decide)

/-- C9: whenever `end <= start` as times of day, the calculator treats
`end` as belonging to the following day: the total duration it reports
is `(end + 1 day) - start`, and that value is strictly positive. -/
theorem calculate_from_range_overnight_total (s e n : Nat)
    (hs : s < secondsPerDay) (he : e < secondsPerDay) (hes : e ≤ s) :
    (calculate_from_range (.valid s) (.valid e) n).map (fun x => x.2.2) =
        .ok (e + secondsPerDay - s) ∧
      0 < e + secondsPerDay - s := by
  have hs' : s % secondsPerDay = s := Nat.mod_eq_of_lt hs
  have he' : e % secondsPerDay = e := Nat.mod_eq_of_lt he
  constructor
  · simp only [calculate_from_range, parse_time_string, hs', he']
    rw [if_pos hes]
    split_ifs <;> simp [Except.map]
  · have : s < secondsPerDay := hs
    omega

/-- Witness for C9 at the spec's concrete scenario
`compute("23:00", "01:00", now=12:00)`: the window wraps a day and the
total is 7200 s. -/
theorem calculate_from_range_overnight_total_witness :
    (calculate_from_range (.valid 82800) (.valid 3600) 43200).map
        (fun x => x.2.2) = .ok 7200 ∧
      0 < (3600 + secondsPerDay - 82800) :=
  ⟨(calculate_from_range_overnight_total 82800 3600 43200
      (by decide) (by decide) (by decide)).1,
    (calculate_from_range_overnight_total 82800 3600 43200
      (by decide) (by decide) (by decide)).2⟩

/-- `LockSchedule` (`schema.py`, lines 6-17).  `id` is the schedule's
UUID rendered as a string (all lookups in the code go through
`str(s.id)`).

Modelled from the spec: the `skipped_dates` field.  `manager.py`
(`skip_schedule_today`, `reset_skipped_schedules`, `check_schedules`)
reads and writes `s.skipped_dates`, but the snapshot's `schema.py` does
not declare it; spec section 3 defines it as the set of ISO calendar
dates for which the schedule must not activate. -/
structure LockSchedule where
  id : String
  start_time : TimeStr
  end_time : TimeStr
  enabled : Bool := true
  description : Option String := none
  persist : Bool := false
  blocked_apps : List String := []
  block_only : Bool := false
  skipped_dates : List String := []
deriving DecidableEq

/-- One loop body of `ScheduleManager.check_schedules` (`manager.py`,
lines 275-282): a schedule contributes a candidate tuple unless it is
disabled, skipped for today, or its time-range calculation fails (the
bare `except: continue`). -/
def check_entry (today : String) (now : Nat) (s : LockSchedule) :
    Option (LockSchedule × Nat × Nat × Nat) :=
  if s.enabled = false ∨ today ∈ s.skipped_dates then none
  else
    match calculate_from_range s.start_time s.end_time now with
    | .ok (delay, duration, total) => some (s, delay, duration, total)
    | .error _ => none

/-- The order used by `candidates.sort(key=lambda x: x[1])`
(`manager.py`, line 284): ascending by the delay component. -/
def delayLE (x y : LockSchedule × Nat × Nat × Nat) : Prop :=
  x.2.1 ≤ y.2.1

instance : DecidableRel delayLE := fun x y => Nat.decLe x.2.1 y.2.1

instance : IsTotal (LockSchedule × Nat × Nat × Nat) delayLE :=
  ⟨fun x y => Nat.le_total x.2.1 y.2.1⟩

instance : IsTrans (LockSchedule × Nat × Nat × Nat) delayLE :=
  ⟨fun _ _ _ => Nat.le_trans⟩

/-- `ScheduleManager.check_schedules` (`manager.py`, lines 266-285):
collect the candidate tuples in store order, then sort ascending by
delay (Python's stable sort is modelled by insertion sort, which is also
stable). -/
def check_schedules (schedules : List LockSchedule) (today : String)
    (now : Nat) : List (LockSchedule × Nat × Nat × Nat) :=
  List.insertionSort delayLE (schedules.filterMap (check_entry today now))

/-- C1: `check_schedules` never fails; every returned entry is an
enabled schedule, not skipped for today, carrying exactly the values the
Time-Range Calculator produced; the result is sorted ascending by
`delaySeconds`; and every enabled, non-skipped schedule whose
calculation succeeds does appear (so failures are the only exclusions
beyond the two filters). -/
theorem check_schedules_correct (schedules : List LockSchedule)
    (today : String) (now : Nat) :
    (∀ x ∈ check_schedules schedules today now,
        x.1.enabled = true ∧ today ∉ x.1.skipped_dates ∧
          calculate_from_range x.1.start_time x.1.end_time now =
            .ok (x.2.1, x.2.2.1, x.2.2.2)) ∧
      List.Sorted delayLE (check_schedules schedules today now) ∧
      ∀ s ∈ schedules, s.enabled = true → today ∉ s.skipped_dates →
        ∀ d r t, calculate_from_range s.start_time s.end_time now = .ok (d, r, t) →
          (s, d, r, t) ∈ check_schedules schedules today now := by
  refine ⟨?_, ?_, ?_⟩
  · intro x hx
    rw [check_schedules, List.mem_insertionSort] at hx
    obtain ⟨s, _, hs⟩ := List.mem_filterMap.mp hx
    rw [check_entry] at hs
    split at hs
    · exact absurd hs (by simp)
    · rename_i hcond
      push_neg at hcond
      split at hs
      · rename_i v hv
        cases hs
        exact ⟨by simpa using hcond.1, hcond.2, hv⟩
      · exact absurd hs (by simp)
  · exact List.sorted_insertionSort delayLE _
  · intro s hs hen hskip d r t hcalc
    rw [check_schedules, List.mem_insertionSort]
    refine List.mem_filterMap.mpr ⟨s, hs, ?_⟩
    rw [check_entry, if_neg (by simp [hen, hskip]), hcalc]

/-- A concrete ISO date used by the witnesses. -/
def demoDate : String := "2026-10-12"

/-- The id string of `demoSched`. -/
def demoId : String := "a1"

/-- A schedule due later today (20:00-20:30), enabled and not skipped:
concrete input for the witnesses. -/
def demoSched : LockSchedule :=
  { id := demoId, start_time := .valid 72000, end_time := .valid 73800 }

/-- Witness for C1: on a concrete store, the membership conjunct is
discharged at `demoSched` with every hypothesis evaluated. -/
theorem check_schedules_correct_witness :
    (demoSched, 7200, 1800, 1800) ∈
      check_schedules [{ demoSched with enabled := false }, demoSched]
        demoDate 64800 :=
  (check_schedules_correct [{ demoSched with enabled := false }, demoSched]
        demoDate 64800).2.2
    demoSched (by decide) (by decide) (by decide) 7200 1800 1800 rfl

/-- The literal phase strings used by `LockOutManager._state`
(`manager.py`, line 28). -/
def idlePhase : String := "IDLE"

/-- `_state` value while waiting out the initial delay. -/
def waitingPhase : String := "WAITING"

/-- `_state` value during enforcement. -/
def lockedPhase : String := "LOCKED"

/-- `LockOutManager` (`manager.py`, lines 19-32): the mutable fields of
one lockout session.  `_target_end_time` is kept abstract as an absolute
instant in seconds; the background thread itself is not part of the
state — `start` reports whether it spawned one. -/
structure LockOutManager where
  initial_delay_seconds : Nat
  lockout_duration_seconds : Nat
  stop_event : Bool := false
  running : Bool := false
  state : String := idlePhase
  target_end_time : Nat := 0
  blocked_apps : List String := []
  block_only : Bool := false
  start_notification : Option (String × String) := none
deriving DecidableEq

/-- `LockOutManager.__init__` (`manager.py`, lines 22-32). -/
def LockOutManager.init (initial_delay_seconds lockout_duration_seconds : Nat) :
    LockOutManager :=
  { initial_delay_seconds, lockout_duration_seconds }

/-- `LockOutManager.start` (`manager.py`, lines 42-66).  Returns the
manager together with `true` when a background thread was spawned; when
`_running` is already set the call logs and returns with no mutation at
all (the guard precedes every assignment). -/
def LockOutManager.start (m : LockOutManager)
    (blocked_apps : Option (List String) := none)
    (block_only : Bool := false)
    (start_notification : Option (String × String) := none) :
    LockOutManager × Bool :=
  if m.running then (m, false)
  else
    ({ m with
        blocked_apps := blocked_apps.getD [],
        block_only := block_only,
        start_notification := start_notification,
        stop_event := false,
        running := true,
        state := waitingPhase }, true)

/-- `LockOutManager.stop` (`manager.py`, lines 68-79): a no-op when not
running; otherwise sets the stop event, joins with a bounded timeout,
and unconditionally resets `_running`/`_state`. -/
def LockOutManager.stop (m : LockOutManager) : LockOutManager :=
  if m.running = false then m
  else { m with stop_event := true, running := false, state := idlePhase }

/-- C7: calling `start` on a session that is already running is a safe
no-op — the manager is returned unchanged and no second background
thread is spawned. -/
theorem start_when_running_is_noop (m : LockOutManager)
    (blocked_apps : Option (List String)) (block_only : Bool)
    (start_notification : Option (String × String))
    (h : m.running = true) :
    m.start blocked_apps block_only start_notification = (m, false) := by
  rw [LockOutManager.start, if_pos h]

/-- Witness for C7: a concrete running session (in its LOCKED phase)
absorbs a second `start` without mutation or a new thread. -/
theorem start_when_running_is_noop_witness :
    LockOutManager.start
        { initial_delay_seconds := 60, lockout_duration_seconds := 600,
          running := true, state := lockedPhase }
        (some [demoId]) true none =
      ({ initial_delay_seconds := 60, lockout_duration_seconds := 600,
          running := true, state := lockedPhase }, false) :=
  start_when_running_is_noop
    { initial_delay_seconds := 60, lockout_duration_seconds := 600,
      running := true, state := lockedPhase }
    (some [demoId]) true none rfl

/-- The polling loop of `LockOutManager._wait_initial_delay`
(`manager.py`, lines 103-124), for a run that is never cancelled.  Time
is in whole seconds; `endTime` is the loop's `end_time`, `t` the current
instant, `notified` the `notified_one_minute` flag.  Returns the list of
sleep durations passed to `self._stop_event.wait` and the number of
"1 minute remaining" notifications sent.  The structural `fuel`
argument only bounds the recursion; each iteration advances `t` by at
least one second, so `fuel := endTime` always suffices. -/
def waitLoop : Nat → Nat → Nat → Bool → List Nat × Nat
  | 0, _, _, _ => ([], 0)
  | fuel + 1, endTime, t, notified =>
    if t < endTime then
      let remaining := endTime - t
      let fire := 60 ≤ remaining ∧ remaining < 61 ∧ notified = false
      let notified1 := if fire then true else notified
      let sent := if fire then 1 else 0
      let sleep_duration := min remaining 5
      if sleep_duration = 0 then ([], sent)
      else
        let rest := waitLoop fuel endTime (t + sleep_duration) notified1
        (sleep_duration :: rest.1, sent + rest.2)
    else ([], 0)

/-- `_wait_initial_delay` entered at instant 0 with an initial delay of
`delay` seconds and the `notified_one_minute` flag cleared
(`manager.py`, lines 96-124). -/
def wait_initial_delay (delay : Nat) : List Nat × Nat :=
  waitLoop delay delay 0 false

/-- The notification counter never exceeds one over any suffix of the
loop: the `notified_one_minute` latch is read before every send. -/
theorem waitLoop_sent_le (fuel endTime t : Nat) (notified : Bool) :
    (waitLoop fuel endTime t notified).2 ≤ (if notified then 0 else 1) := by
  induction fuel generalizing t notified with
  | zero => simp [waitLoop]
  | succ fuel ih =>
    rw [waitLoop]
    dsimp only
    by_cases h1 : t < endTime
    · rw [if_pos h1]
      cases notified with
      | true =>
        by_cases h0 : min (endTime - t) 5 = 0
        · simp [h0]
        · have h2 := ih (t + min (endTime - t) 5) true
          simp at h2
          simp [h0]
          omega
      | false =>
        by_cases hAB : 60 ≤ endTime - t ∧ endTime - t < 61
        · by_cases h0 : min (endTime - t) 5 = 0
          · simp [hAB, h0]
          · have h2 := ih (t + min (endTime - t) 5) true
            simp at h2
            simp [hAB, h0]
            omega
        · by_cases h0 : min (endTime - t) 5 = 0
          · simp [hAB, h0]
          · have h2 := ih (t + min (endTime - t) 5) false
            simp at h2
            simp [hAB, h0]
            omega
    · rw [if_neg h1]
      cases notified <;> simp

/-- Every sleep duration requested by the loop is `min remaining 5`,
hence at most five seconds. -/
theorem waitLoop_sleeps_le (fuel endTime t : Nat) (notified : Bool) :
    ∀ d ∈ (waitLoop fuel endTime t notified).1, d ≤ 5 := by
  induction fuel generalizing t notified with
  | zero => simp [waitLoop]
  | succ fuel ih =>
    rw [waitLoop]
    dsimp only
    by_cases h1 : t < endTime
    · rw [if_pos h1]
      by_cases h0 : min (endTime - t) 5 = 0
      · simp [h0]
      · rw [if_neg h0]
        intro d hd
        rcases List.mem_cons.mp hd with h | h
        · subst h; exact Nat.min_le_right _ _
        · exact ih _ _ d h
    · rw [if_neg h1]
      simp

/-- Counterexample to C3 as stated: with an initial delay of 62 seconds
the WAITING phase runs to completion, the remaining time does cross the
1-minute boundary (62 > 60), yet no poll lands in the `[60, 61)` window
(the loop observes 62, 57, 52, ... seconds remaining), so the
"1 minute remaining" notification is sent zero times, not exactly
once. -/
theorem wait_initial_delay_misses_notification :
    (wait_initial_delay 62).2 = 0 ∧ 60 < 62 := by decide

/-- C3 amended: the waiting routine polls at an interval of at most five
seconds, and the "1 minute remaining" notification is sent at most once
— never more than once — but a run may miss it entirely when no poll
observes a remaining time inside `[60, 61)`. -/
theorem wait_initial_delay_amended (delay : Nat) :
    (∀ d ∈ (wait_initial_delay delay).1, d ≤ 5) ∧
      (wait_initial_delay delay).2 ≤ 1 := by
  refine ⟨waitLoop_sleeps_le delay delay 0 false, ?_⟩
  simpa using waitLoop_sent_le delay delay 0 false

/-- Witness for C3 amended: at a 65-second delay the loop's first sleep
is the full five seconds and the notification count is bounded by one
(here it is in fact sent, since the poll at 60 seconds remaining lands
in the window). -/
theorem wait_initial_delay_amended_witness :
    5 ≤ 5 ∧ (wait_initial_delay 65).2 ≤ 1 :=
  ⟨(wait_initial_delay_amended 65).1 5 (by decide),
    (wait_initial_delay_amended 65).2⟩

/-- The schedules backing file as `_load_schedules` observes it:
whether it is present, its modification time, and what `json.load` plus
per-record `LockSchedule(**s)` validation yield — `Except.error` for a
corrupt (unparseable or invalid) file. -/
structure ScheduleFile where
  present : Bool
  mtime : Nat
  content : Except Unit (List LockSchedule)

/-- The `ScheduleManager` fields touched by loading (`manager.py`,
lines 167-171): the in-memory list and the cached modification time. -/
structure ScheduleManagerState where
  schedules : List LockSchedule
  last_schedules_mtime : Option Nat
deriving DecidableEq

/-- `ScheduleManager._load_schedules` (`manager.py`, lines 173-190):
missing file resets to the empty list; an unchanged mtime skips the
reload; a successful parse replaces the list and records the mtime; a
failure is logged and leaves every field as it was (the `except` branch
assigns nothing). -/
def load_schedules (st : ScheduleManagerState) (file : ScheduleFile) :
    ScheduleManagerState :=
  if file.present = false then
    { schedules := [], last_schedules_mtime := none }
  else if st.last_schedules_mtime = some file.mtime then st
  else
    match file.content with
    | .ok data => { schedules := data, last_schedules_mtime := some file.mtime }
    | .error _ => st

/-- `ScheduleManager.__init__` leaves `schedules = []` before the first
load (`manager.py`, lines 167-171). -/
def scheduleManagerInit : ScheduleManagerState :=
  { schedules := [], last_schedules_mtime := none }

/-- Counterexample to C5 as stated: a manager that had loaded one
schedule and then attempts to reload from a now-corrupt file (new mtime,
unparseable content) keeps its previous non-empty list — the claim says
the resulting in-memory list is empty. -/
theorem load_schedules_corrupt_counterexample :
    (load_schedules { schedules := [demoSched], last_schedules_mtime := some 1 }
        { present := true, mtime := 2, content := .error () }).schedules ≠ [] := by
  decide

/-- C5 amended: loading from a corrupt backing file never fails — the
operation is total, logging the error — and it leaves the in-memory
schedule list (and the cached mtime) unchanged, so the list is empty
only when it was already empty, as on a fresh manager. -/
theorem load_schedules_corrupt_amended (st : ScheduleManagerState)
    (file : ScheduleFile) (hp : file.present = true)
    (hc : file.content = .error ()) :
    load_schedules st file = st := by
  rw [load_schedules]
  rw [if_neg (by simp [hp])]
  split
  · rfl
  · rw [hc]

/-- Witness for C5 amended: the corrupt reload of the counterexample
returns normally with the prior state intact, and on a fresh manager the
same corrupt load leaves the list empty. -/
theorem load_schedules_corrupt_amended_witness :
    load_schedules { schedules := [demoSched], last_schedules_mtime := some 1 }
        { present := true, mtime := 2, content := .error () } =
        { schedules := [demoSched], last_schedules_mtime := some 1 } ∧
      (load_schedules scheduleManagerInit
          { present := true, mtime := 2, content := .error () }).schedules = [] :=
  ⟨load_schedules_corrupt_amended _ _ rfl rfl,
    by rw [load_schedules_corrupt_amended _ _ rfl rfl]; rfl⟩

/-- One serialized daemon-status record as built by `write_state`
(`utils/state.py`, lines 14-18): the process id, the `datetime.now()`
timestamp it was built at, and the active-session snapshot (`None` when
idle).  The snapshot's shape is irrelevant to the publisher, which only
compares and serializes it, so it stays a type parameter. -/
structure StateRecord (α : Type) where
  pid : Nat
  last_update : Nat
  active_lockout : Option α
deriving DecidableEq

/-- `write_state` (`utils/state.py`, lines 11-29): build the record from
the current pid, clock and snapshot; skip the write when it equals the
last record written; otherwise write it and remember it.  Returns
whether the file was written together with the new cache. -/
def write_state {α : Type} [DecidableEq α]
    (last_written_state : Option (StateRecord α)) (pid now : Nat)
    (active_info : Option α) : Bool × Option (StateRecord α) :=
  let state : StateRecord α := { pid, last_update := now, active_lockout := active_info }
  if some state = last_written_state then (false, last_written_state)
  else (true, some state)

/-- Counterexample to C6 as stated: two consecutive `write_state` calls
with the identical (idle) active-session snapshot and the same pid, one
clock second apart, both write the file — the second, redundant write is
not skipped, because the compared record embeds the fresh
`datetime.now()` timestamp. -/
theorem write_state_counterexample :
    (write_state (write_state (α := Nat) none 1 0 none).2 1 1 none).1 = true := by
  decide

/-- C6 amended: the redundant write is skipped exactly when the whole
rebuilt record — pid, `last_update` timestamp and active-session
snapshot — equals the last record written; since `last_update` is taken
from the current clock, a repeated call at any later instant rewrites
the file even with an unchanged snapshot. -/
theorem write_state_amended {α : Type} [DecidableEq α]
    (last : Option (StateRecord α)) (pid now : Nat) (active_info : Option α) :
    (last = some { pid, last_update := now, active_lockout := active_info } →
        write_state last pid now active_info = (false, last)) ∧
      (last ≠ some { pid, last_update := now, active_lockout := active_info } →
        write_state last pid now active_info =
          (true, some { pid, last_update := now, active_lockout := active_info })) := by
  constructor
  · intro h
    rw [write_state, if_pos h.symm]
  · intro h
    rw [write_state, if_neg (fun hs => h hs.symm)]

/-- Witness for C6 amended: at concrete values, a call whose rebuilt
record matches the cache is skipped, and one at a later timestamp is
written. -/
theorem write_state_amended_witness :
    write_state (α := Nat)
        (some { pid := 1, last_update := 0, active_lockout := none }) 1 0 none =
        (false, some { pid := 1, last_update := 0, active_lockout := none }) ∧
      write_state (α := Nat)
        (some { pid := 1, last_update := 0, active_lockout := none }) 1 1 none =
        (true, some { pid := 1, last_update := 1, active_lockout := none }) :=
  ⟨(write_state_amended
        (some { pid := 1, last_update := 0, active_lockout := none }) 1 0 none).1 rfl,
    (write_state_amended
        (some { pid := 1, last_update := 0, active_lockout := none }) 1 1 none).2
      (by decide)⟩

/-- The configuration fields the daemon loop reads (`settings.py`,
`Settings`, lines 32-62).

Modelled from the spec: `MAX_LOCKOUT_MINUTES`.  `daemon.py` and
`cli.py` read `settings.MAX_LOCKOUT_MINUTES` (and the command-file
path, which here is abstracted into the pending-payload argument of the
loop), but the snapshot's `Settings` class does not declare them; spec
sections 4.4 and 7 describe the configured maximum lockout duration in
minutes, and section 6 the command channel file. -/
structure Settings where
  MAX_LOCKOUT_MINUTES : Nat
  notify_lead_minutes : Nat
  notify_summary : String
  notify_body : String
deriving DecidableEq

/-- The fields of a `start_instant` command payload (`daemon.py`, lines
40-43 read each with `.get` and a default; `none` models an absent
key). -/
structure StartInstantPayload where
  delay_mins : Option Nat := none
  duration_mins : Option Nat := none
  blocked_apps : Option (List String) := none
  block_only : Option Bool := none
deriving DecidableEq

/-- The fields of a `stop_lockout` command payload read by `run_daemon`
(`daemon.py`, lines 95-97). -/
structure StopPayload where
  schedule_id : Option String := none
  is_persistent : Bool := false
deriving DecidableEq

/-- A parsed command-file record (`daemon.py`, line 37 dispatches on the
`command` key; any other value falls through to `(None, None, None)`). -/
inductive CommandData where
  | start_instant (payload : StartInstantPayload)
  | stop_lockout (payload : StopPayload)
  | unknown
deriving DecidableEq

/-- The `extra_data` component returned by `_process_commands`: the
instant-lockout reporting dict (`daemon.py`, lines 52-59) or the raw
stop payload (line 63). -/
inductive ExtraData where
  | instant (duration_mins : Nat) (start_display : Nat) (block_only : Bool)
      (blocked_apps : List String)
  | stop (payload : StopPayload)
deriving DecidableEq

/-- The sentinel schedule-id `_process_commands` returns for a stop
command (`daemon.py`, line 63). -/
def stopRequestId : String := "stop_request"

/-- The synthetic schedule-id used for instant sessions (`daemon.py`,
line 60). -/
def instantId : String := "instant"

/-- `_process_commands` (`daemon.py`, lines 14-65).  The command channel
is `none` when no file exists, `some (.error ())` for an unreadable /
unparseable file (consumed and discarded), and `some (.ok cmd)` for a
parsed command; the file is consumed in every case.  `now` is the
current instant in seconds, standing in for `datetime.now()` in the
reporting dict. -/
def process_commands (s : Settings)
    (command_file : Option (Except Unit CommandData)) (now : Nat) :
    Option LockOutManager × Option String × Option ExtraData :=
  match command_file with
  | none => (none, none, none)
  | some (.error _) => (none, none, none)
  | some (.ok cmd) =>
    match cmd with
    | .start_instant p =>
      let delay_mins := p.delay_mins.getD 30
      let duration_mins := p.duration_mins.getD 10
      let blocked_apps := p.blocked_apps.getD []
      let block_only := p.block_only.getD true
      let manager := LockOutManager.init (delay_mins * 60)
        (min duration_mins s.MAX_LOCKOUT_MINUTES * 60)
      let started := (manager.start (some blocked_apps) block_only none).1
      (some started, some instantId,
        some (.instant (min duration_mins s.MAX_LOCKOUT_MINUTES)
          (now + delay_mins * 60) block_only blocked_apps))
    | .stop_lockout p => (none, some stopRequestId, some (.stop p))
    | .unknown => (none, none, none)

/-- `ScheduleManager.skip_schedule_today` (`manager.py`, lines 232-242):
scan for the first schedule whose id matches and whose `skipped_dates`
does not yet hold today, append today there and stop. -/
def skip_schedule_today : List LockSchedule → String → String →
    List LockSchedule
  | [], _, _ => []
  | s :: rest, schedule_id, today =>
    if s.id = schedule_id ∧ today ∉ s.skipped_dates then
      { s with skipped_dates := s.skipped_dates ++ [today] } :: rest
    else s :: skip_schedule_today rest schedule_id today

/-- `ScheduleManager.remove_schedule` (`manager.py`, lines 227-230). -/
def remove_schedule (schedules : List LockSchedule) (schedule_id : String) :
    List LockSchedule :=
  schedules.filter (fun s => s.id != schedule_id)

/-- The daemon loop's per-iteration state (`run_daemon`, `daemon.py`,
lines 75-77 plus the `ScheduleManager` it owns). -/
structure DaemonState where
  current_manager : Option LockOutManager := none
  active_sched_id : Option String := none
  instant_lockout_data : Option ExtraData := none
  sm : ScheduleManagerState := scheduleManagerInit
deriving DecidableEq

/-- One iteration of `run_daemon`'s loop (`daemon.py`, lines 82-166):
command processing with the stop short-circuit, the idle-state cleanup
of a finished one-time schedule, command-start, and schedule-start.  The
status-publishing tail of the iteration (lines 168-199) is modelled
separately by `write_state`.  `command_file` is the pending command
channel content, `file` the schedules backing file, `today` the ISO
date, `now` the current time of day in seconds. -/
def run_daemon_tick (cfg : Settings) (st : DaemonState)
    (command_file : Option (Except Unit CommandData))
    (file : ScheduleFile) (today : String) (now : Nat) : DaemonState :=
  let res := process_commands cfg command_file now
  let new_manager := res.1
  let new_id := res.2.1
  let extra_data := res.2.2
  if new_id = some stopRequestId then
    match st.current_manager with
    | some m =>
      let _stopped := m.stop
      let schedules1 :=
        match extra_data with
        | some (.stop p) =>
          if p.is_persistent then
            match p.schedule_id with
            | some sched_id => skip_schedule_today st.sm.schedules sched_id today
            | none => st.sm.schedules
          else st.sm.schedules
        | _ => st.sm.schedules
      { st with current_manager := none,
                sm := { st.sm with schedules := schedules1 } }
    | none => { st with current_manager := none }
  else
    let is_idle :=
      match st.current_manager with
      | none => true
      | some m => m.state == idlePhase
    if is_idle then
      let st1 :=
        match st.active_sched_id with
        | some aid =>
          let schedules1 :=
            if aid != instantId then
              match st.sm.schedules.find? (fun q : LockSchedule => q.id == aid) with
              | some finished =>
                if finished.persist = false then
                  remove_schedule st.sm.schedules finished.id
                else st.sm.schedules
              | none => st.sm.schedules
            else st.sm.schedules
          { st with sm := { st.sm with schedules := schedules1 },
                    current_manager := none, active_sched_id := none,
                    instant_lockout_data := none }
        | none => st
      match new_manager with
      | some m =>
        { st1 with current_manager := some m, active_sched_id := new_id,
                   instant_lockout_data := extra_data }
      | none =>
        let sm1 := load_schedules st1.sm file
        let candidates := check_schedules sm1.schedules today now
        let lead_secs := cfg.notify_lead_minutes * 60
        match candidates with
        | [] => { st1 with sm := sm1 }
        | (sched, delay_secs, duration_secs, _total) :: _ =>
          if delay_secs < lead_secs + 30 then
            let manager := LockOutManager.init delay_secs
              (min duration_secs (cfg.MAX_LOCKOUT_MINUTES * 60))
            let started := (manager.start (some sched.blocked_apps)
              sched.block_only (some (cfg.notify_summary, cfg.notify_body))).1
            { st1 with sm := sm1, current_manager := some started,
                       active_sched_id := some sched.id }
          else { st1 with sm := sm1 }
    else st

/-- The externally visible actions of one iteration of the
`_perform_lockout` loop. -/
inductive EnforcementAction where
  | kill (apps : List String)
  | lock
  | wait_unlock
  | sleep_short
deriving DecidableEq

/-- One iteration of the `_perform_lockout` enforcement loop
(`manager.py`, lines 134-156): kill the blocked apps when any are
configured; when not block-only and the screen is not locked, request a
screen lock; then either long-poll the unlock monitor (not block-only
and screen locked) or sleep the short fixed interval.  `locked1` and
`locked2` are the two `is_screen_locked()` observations of the
iteration. -/
def perform_lockout_iteration (m : LockOutManager) (locked1 locked2 : Bool) :
    List EnforcementAction :=
  (if m.blocked_apps ≠ [] then [.kill m.blocked_apps] else []) ++
    (if m.block_only = false ∧ locked1 = false then [.lock] else []) ++
    (if m.block_only = false ∧ locked2 = true then [.wait_unlock]
      else [.sleep_short])

/-- The typer default of the `--block-only` option of the CLI `instant`
command (`cli.py`, line 114). -/
def instant_block_only_default : Bool := false

/-- The command payload written by the CLI `instant` command (`cli.py`,
lines 152-158): every field is present, `block_only` carrying the
option's value. -/
def cli_instant_command (delay duration : Nat) (apps : List String)
    (block_only : Bool) : StartInstantPayload :=
  { delay_mins := some delay, duration_mins := some duration,
    blocked_apps := some apps, block_only := some block_only }

/-- A concrete configuration for witnesses: a 60-minute maximum and a
5-minute lead. -/
def demoSettings : Settings :=
  { MAX_LOCKOUT_MINUTES := 60, notify_lead_minutes := 5,
    notify_summary := demoDate, notify_body := demoDate }

/-- A concrete session in its LOCKED phase, for witnesses. -/
def demoLockedManager : LockOutManager :=
  { initial_delay_seconds := 0, lockout_duration_seconds := 600,
    running := true, state := lockedPhase }

/-- A concrete schedules backing file for witnesses. -/
def demoFile : ScheduleFile :=
  { present := true, mtime := 1, content := .ok [demoSched] }

/-- A concrete daemon state for witnesses: `demoSched` is in the store
and its session is LOCKED. -/
def demoDaemonState : DaemonState :=
  { current_manager := some demoLockedManager, active_sched_id := some demoId,
    sm := { schedules := [demoSched], last_schedules_mtime := some 1 } }

/-- A manager built by `LockOutManager.__init__` and immediately
`start`ed keeps the constructor's lockout duration. -/
theorem init_start_duration (d dur : Nat) (apps : Option (List String))
    (bo : Bool) (sn : Option (String × String)) :
    ((LockOutManager.init d dur).start apps bo sn).1.lockout_duration_seconds =
      dur := rfl

/-- A manager built by `LockOutManager.__init__` and immediately
`start`ed carries the `block_only` argument. -/
theorem init_start_block_only (d dur : Nat) (apps : Option (List String))
    (bo : Bool) (sn : Option (String × String)) :
    ((LockOutManager.init d dur).start apps bo sn).1.block_only = bo := rfl

/-- After `skip_schedule_today`, some schedule with the requested id has
today among its skipped dates, provided such an id was present: either
the scan mutates the first match, or that match already held today. -/
theorem skip_schedule_today_mem (schedules : List LockSchedule)
    (A today : String) (h : ∃ s ∈ schedules, s.id = A) :
    ∃ s ∈ skip_schedule_today schedules A today,
      s.id = A ∧ today ∈ s.skipped_dates := by
  induction schedules with
  | nil => simp at h
  | cons s rest ih =>
    rw [skip_schedule_today]
    by_cases hc : s.id = A ∧ today ∉ s.skipped_dates
    · rw [if_pos hc]
      exact ⟨{ s with skipped_dates := s.skipped_dates ++ [today] },
        List.mem_cons_self _ _, hc.1, by simp⟩
    · rw [if_neg hc]
      by_cases hsA : s.id = A
      · have htoday : today ∈ s.skipped_dates := by
          by_contra hnot
          exact hc ⟨hsA, hnot⟩
        exact ⟨s, List.mem_cons_self _ _, hsA, htoday⟩
      · obtain ⟨w, hw, hwid⟩ := h
        rcases List.mem_cons.mp hw with rfl | hw1
        · exact absurd hwid hsA
        · obtain ⟨v, hv, hvid, hvt⟩ := ih ⟨w, hw1, hwid⟩
          exact ⟨v, List.mem_cons_of_mem _ hv, hvid, hvt⟩

/-- Any manager handed back by `_process_commands` was built with its
duration argument passed through `min(duration_mins,
MAX_LOCKOUT_MINUTES) * 60`. -/
theorem process_commands_duration_le (cfg : Settings)
    (command_file : Option (Except Unit CommandData)) (now : Nat)
    (m : LockOutManager)
    (h : (process_commands cfg command_file now).1 = some m) :
    m.lockout_duration_seconds ≤ cfg.MAX_LOCKOUT_MINUTES * 60 := by
  match command_file with
  | none => simp [process_commands] at h
  | some (.error e) => simp [process_commands] at h
  | some (.ok (.stop_lockout p)) => simp [process_commands] at h
  | some (.ok .unknown) => simp [process_commands] at h
  | some (.ok (.start_instant p)) =>
    simp only [process_commands, Option.some.injEq] at h
    rw [← h, init_start_duration]
    have := Nat.min_le_right (p.duration_mins.getD 10) cfg.MAX_LOCKOUT_MINUTES
    omega

/-- C2: consuming `stop_lockout{schedule_id = A, is_persistent = true}`
while A's session is LOCKED makes the session IDLE within that tick
(`stop` resets the phase), the daemon drops its reference to it, and
afterwards some schedule with id A is still in the store with today's
date among its `skipped_dates`. -/
theorem stop_persistent_locked_session (cfg : Settings) (st : DaemonState)
    (file : ScheduleFile) (today : String) (now : Nat)
    (m : LockOutManager) (A : String)
    (hm : st.current_manager = some m) (hlocked : m.state = lockedPhase)
    (hrun : m.running = true)
    (hA : ∃ s ∈ st.sm.schedules, s.id = A) :
    m.stop.state = idlePhase ∧
      (run_daemon_tick cfg st
          (some (.ok (.stop_lockout
            { schedule_id := some A, is_persistent := true })))
          file today now).current_manager = none ∧
      ∃ s ∈ (run_daemon_tick cfg st
          (some (.ok (.stop_lockout
            { schedule_id := some A, is_persistent := true })))
          file today now).sm.schedules,
        s.id = A ∧ today ∈ s.skipped_dates := by
  have hstop : m.stop.state = idlePhase := by
    rw [LockOutManager.stop, if_neg (by simp [hrun])]
  have htick : run_daemon_tick cfg st
      (some (.ok (.stop_lockout
        { schedule_id := some A, is_persistent := true })))
      file today now =
      { st with current_manager := none,
                sm := { st.sm with
                  schedules := skip_schedule_today st.sm.schedules A today } } := by
    rw [run_daemon_tick]
    simp [process_commands, hm]
  rw [htick]
  exact ⟨hstop, rfl, skip_schedule_today_mem st.sm.schedules A today hA⟩

/-- Witness for C2 at a concrete daemon state: a LOCKED session bound to
`demoSched`, a persistent stop command naming it, and one tick. -/
theorem stop_persistent_locked_session_witness :
    demoLockedManager.stop.state = idlePhase ∧
      (run_daemon_tick demoSettings demoDaemonState
          (some (.ok (.stop_lockout
            { schedule_id := some demoId, is_persistent := true })))
          demoFile demoDate 64800).current_manager = none ∧
      ∃ s ∈ (run_daemon_tick demoSettings demoDaemonState
          (some (.ok (.stop_lockout
            { schedule_id := some demoId, is_persistent := true })))
          demoFile demoDate 64800).sm.schedules,
        s.id = demoId ∧ demoDate ∈ s.skipped_dates :=
  stop_persistent_locked_session demoSettings demoDaemonState demoFile demoDate
    64800 demoLockedManager demoId rfl rfl rfl ⟨demoSched, by decide, rfl⟩

/-- C4: every session the daemon loop starts has its lockout duration
clamped to the configured maximum — managers built by
`_process_commands` for `start_instant` obey
`lockout_duration_seconds ≤ MAX_LOCKOUT_MINUTES * 60`, and after any
tick the bound manager either predates the tick or obeys the same
bound. -/
theorem session_duration_clamped (cfg : Settings) :
    (∀ (command_file : Option (Except Unit CommandData)) (now : Nat)
        (m : LockOutManager),
        (process_commands cfg command_file now).1 = some m →
        m.lockout_duration_seconds ≤ cfg.MAX_LOCKOUT_MINUTES * 60) ∧
      ∀ (st : DaemonState) (command_file : Option (Except Unit CommandData))
        (file : ScheduleFile) (today : String) (now : Nat) (m : LockOutManager),
        (run_daemon_tick cfg st command_file file today now).current_manager =
          some m →
        st.current_manager = some m ∨
          m.lockout_duration_seconds ≤ cfg.MAX_LOCKOUT_MINUTES * 60 := by
  refine ⟨fun cf now m h => process_commands_duration_le cfg cf now m h, ?_⟩
  intro st cf file today now m h
  dsimp only [run_daemon_tick] at h
  split at h
  · split at h <;> simp at h
  · split at h
    · split at h
      · rename_i m1 heq
        right
        simp only [DaemonState.current_manager, Option.some.injEq] at h
        exact h ▸ process_commands_duration_le cfg cf now m1 heq
      · split at h
        · split at h <;> simp at h <;> exact Or.inl h
        · split at h
          · right
            simp only [DaemonState.current_manager, Option.some.injEq] at h
            rw [← h, init_start_duration]
            exact Nat.min_le_right _ _
          · split at h <;> simp at h <;> exact Or.inl h
    · exact Or.inl h

/-- Witness for C4: a `start_instant` command asking for 1000 minutes
against a 60-minute maximum yields a session clamped to 3600 seconds. -/
theorem session_duration_clamped_witness :
    (((LockOutManager.init 1800 3600).start (some [])
        true none).1).lockout_duration_seconds ≤
      demoSettings.MAX_LOCKOUT_MINUTES * 60 :=
  (session_duration_clamped demoSettings).1
    (some (.ok (.start_instant { duration_mins := some 1000 }))) 0
    (((LockOutManager.init 1800 3600).start (some []) true none).1) rfl

/-- C10: a `start_instant` payload that omits `block_only` starts the
instant session with `block_only = true` (the daemon-side default), so
its enforcement iterations never request a screen lock — even though the
CLI `instant` command always writes the field explicitly and defaults it
to `false`. -/
theorem start_instant_block_only_defaults (cfg : Settings)
    (p : StartInstantPayload) (now : Nat) (h : p.block_only = none) :
    (∀ m, (process_commands cfg (some (.ok (.start_instant p))) now).1 =
          some m →
        m.block_only = true ∧
          ∀ locked1 locked2,
            .lock ∉ perform_lockout_iteration m locked1 locked2) ∧
      (∀ delay duration apps b,
          (cli_instant_command delay duration apps b).block_only = some b) ∧
      instant_block_only_default = false := by
  refine ⟨?_, fun _ _ _ _ => rfl, rfl⟩
  intro m hm
  simp only [process_commands, Option.some.injEq] at hm
  have hbo : m.block_only = true := by
    rw [← hm, init_start_block_only, h]
    rfl
  refine ⟨hbo, ?_⟩
  intro locked1 locked2
  simp [perform_lockout_iteration, hbo]

/-- Witness for C10: the empty payload (every key absent) produces a
block-only session whose enforcement iteration contains no screen-lock
request. -/
theorem start_instant_block_only_defaults_witness :
    (((LockOutManager.init 1800 600).start (some [])
        true none).1).block_only = true ∧
      EnforcementAction.lock ∉
        perform_lockout_iteration
          (((LockOutManager.init 1800 600).start (some []) true none).1)
          false false :=
  ⟨((start_instant_block_only_defaults demoSettings
        ({} : StartInstantPayload) 0 rfl).1
      (((LockOutManager.init 1800 600).start (some []) true none).1) rfl).1,
    ((start_instant_block_only_defaults demoSettings
        ({} : StartInstantPayload) 0 rfl).1
      (((LockOutManager.init 1800 600).start (some []) true none).1) rfl).2
      false false⟩

end LockMeOut
